import Mathlib

/-!
Verification of the two documentation example scripts in
`docs/architecture/database_storage/examples/`:

* `example_content_qdrant.py` — upserts ten entity points into the single
  collection `"entities"`, then issues a second upsert carrying relationship
  references in the payload of the point `"kaiser"`.
* `example_content_weaviate.py` — creates six class schemas, creates ten data
  objects (the store returns an identifier for each), then adds ten directed
  cross-references between the returned identifiers.

The scripts are straight-line sequences of store-client calls, so each script
is embedded as the list of calls it issues, together with a small operational
semantics of the store state those calls build.  The Weaviate script binds the
identifiers returned by `data_object.create`; those returns are external, so
the Weaviate trace is parameterised by an id-assignment `f : Nat → String`
giving the identifier returned by the n-th create call.
-/

namespace Archimedes

/-- A payload field value appearing in the example scripts: a string, an
integer, or a list of strings (used both for topic lists and for lists of
referenced identifiers). -/
inductive Value where
  | str (s : String)
  | num (n : Int)
  | strList (l : List String)
deriving DecidableEq

/-- An attribute payload: an ordered list of (field name, value) pairs,
transcribing the Python dict literals of the scripts. -/
abbrev Payload := List (String × Value)

/-- Look a key up in an association list, returning the first match. -/
def getVal {κ α : Type} [DecidableEq κ] (s : List (κ × α)) (k : κ) : Option α :=
  match s with
  | [] => none
  | (k2, v) :: rest => if k2 = k then some v else getVal rest k

/-- Insert-or-replace in an association list: if the key is present its value
is replaced in place, otherwise the pair is appended. -/
def upd {κ α : Type} [DecidableEq κ] (s : List (κ × α)) (k : κ) (v : α) :
    List (κ × α) :=
  if s.any (fun q => q.1 = k) then
    s.map (fun q => if q.1 = k then (k, v) else q)
  else s ++ [(k, v)]

/-! ### Qdrant script (`example_content_qdrant.py`) -/

/-- One point of a `qdrant_client.upsert` call: an identifier, an optional
vector (named after the externally generated embedding variable; the second
upsert's point carries no vector key), and an attribute payload. -/
structure QPoint where
  id : String
  vector : Option String
  payload : Payload
deriving DecidableEq

/-- One `qdrant_client.upsert` call: a collection name and a list of points. -/
structure QUpsert where
  collection_name : String
  points : List QPoint
deriving DecidableEq

/-- The first upsert of the Qdrant script (its section 2, "Store entities in a
single collection"): the ten entity points with their payloads. -/
def qdrantCall1 : QUpsert :=
  { collection_name := "entities"
    points :=
      [ { id := "kaiser", vector := some "kaiser_embedding"
          payload := [("type", .str "Person"), ("name", .str "Kaiser Soze")] }
      , { id := "nancy", vector := some "nancy_embedding"
          payload := [("type", .str "Person"), ("name", .str "Nancy Soze")] }
      , { id := "collegiate", vector := some "collegiate_embedding"
          payload := [("type", .str "Place"),
            ("name", .str "Collegiate Peaks Wilderness"),
            ("placeType", .str "Wilderness"), ("state", .str "Colorado")] }
      , { id := "princeton", vector := some "princeton_embedding"
          payload := [("type", .str "Place"), ("name", .str "Mount Princeton"),
            ("placeType", .str "Mountain"), ("elevation", .num 14197),
            ("state", .str "Colorado")] }
      , { id := "salida", vector := some "salida_embedding"
          payload := [("type", .str "Place"), ("name", .str "Salida"),
            ("placeType", .str "Town"), ("state", .str "Colorado")] }
      , { id := "wildlife", vector := some "wildlife_embedding"
          payload := [("type", .str "Project"),
            ("name", .str "Wildlife Monitoring"), ("status", .str "Concept"),
            ("inspiration", .str "Collegiate Peaks trip")] }
      , { id := "resilience", vector := some "resilience_embedding"
          payload := [("type", .str "Idea"),
            ("name", .str "Community Resilience Through Technology"),
            ("topics", .strList ["mesh networks", "resource sharing",
              "AI disaster response"])] }
      , { id := "backpacking", vector := some "backpacking_embedding"
          payload := [("type", .str "Experience"),
            ("description", .str "Solo backpacking trip"),
            ("startDate", .str "2024-06"), ("durationDays", .num 8),
            ("distanceMiles", .num 85),
            ("inspirationFor", .str "Wildlife Monitoring")] }
      , { id := "anniversary", vector := some "anniversary_embedding"
          payload := [("type", .str "Event"),
            ("name", .str "24th Wedding Anniversary"),
            ("date", .str "2024-09"),
            ("activity", .str "Climbed Mount Princeton")] }
      , { id := "blacksmithing", vector := some "blacksmithing_embedding"
          payload := [("type", .str "Experience"),
            ("description", .str "Learned blacksmithing in Salida"),
            ("startDate", .str "2024-12"), ("durationMonths", .num 3),
            ("mentor", .str "Old-timer in Salida"),
            ("product", .str "Custom door handles")] } ] }

/-- The second upsert of the Qdrant script (its section 3, "Relationships (as
payload references)"): the single point `"kaiser"` whose payload holds the
reference-identifier lists, with no vector key. -/
def qdrantCall2 : QUpsert :=
  { collection_name := "entities"
    points :=
      [ { id := "kaiser", vector := none
          payload := [("participatedIn", .strList ["backpacking"]),
            ("inspired", .strList ["wildlife"]),
            ("marriedTo", .strList ["nancy"]),
            ("celebrated", .strList ["anniversary"]),
            ("learnedSkill", .strList ["blacksmithing"]),
            ("generatedIdea", .strList ["resilience"])] } ] }

/-- The Qdrant script's trace: exactly two upsert calls, in source order. -/
def qdrantTrace : List QUpsert := [qdrantCall1, qdrantCall2]

/-- A stored Qdrant point record: its optional vector and its payload. -/
abbrev QRec := Option String × Payload

/-- Qdrant store state: an association list keyed by (collection name,
point id). -/
abbrev QState := List ((String × String) × QRec)

/-- Semantics of one `upsert` call: each listed point is inserted, or, when a
point with the same id already exists in the collection, its record is
replaced by the given one (Qdrant upsert overwrites the whole point). -/
def applyQUpsert (s : QState) (u : QUpsert) : QState :=
  u.points.foldl
    (fun s p => upd s (u.collection_name, p.id) (p.vector, p.payload)) s

/-- Store state after the first upsert of the Qdrant script. -/
def qAfter1 : QState := applyQUpsert [] qdrantCall1

/-- Store state after running the whole Qdrant script. -/
def qdrantFinal : QState := applyQUpsert qAfter1 qdrantCall2

/-- The identifiers of the ten entity points of the first upsert. -/
def qdrantIds : List String := qdrantCall1.points.map QPoint.id

/-- The reference edges carried by one point's payload: one directed edge
(point id, field name, target) per element of each string-list field. -/
def pointEdges (p : QPoint) : List (String × String × String) :=
  p.payload.foldr
    (fun kv acc =>
      match kv.2 with
      | .strList ts => ts.map (fun t => (p.id, kv.1, t)) ++ acc
      | _ => acc) []

/-- The relationship edges recorded by the Qdrant script: the reference lists
written by its relationship upsert (`qdrantCall2`). -/
def qdrantRelEdges : List (String × String × String) :=
  qdrantCall2.points.foldr (fun p acc => pointEdges p ++ acc) []

/-- Whether the edge (a, r, b) exists in a Qdrant store state: the record of
point `a` in collection `"entities"` has a field `r` whose string-list value
contains `b`. -/
def qEdgeB (s : QState) (a r b : String) : Bool :=
  match getVal s ("entities", a) with
  | some (_, p) =>
      match getVal p r with
      | some (.strList ts) => ts.contains b
      | _ => false
  | none => false

/-! ### Weaviate script (`example_content_weaviate.py`) -/

/-- One property of a Weaviate class schema: a name and a dataType list. -/
structure WProperty where
  name : String
  dataType : List String
deriving DecidableEq

/-- A Weaviate class schema: the class name and its property list. -/
structure WClass where
  name : String
  properties : List WProperty
deriving DecidableEq

/-- One store call of the Weaviate script: a `client.schema.create_class`
call, a `client.data_object.create` call (payload, class name, and the
identifier the store returned for it), or a
`client.data_object.reference_add` call (source id, relation name,
target id). -/
inductive WCall where
  | createClass (c : WClass)
  | createObj (payload : Payload) (klass : String) (rid : String)
  | refAdd (src rel tgt : String)
deriving DecidableEq

/-- The six class schemas created by section 1 of the Weaviate script, in
source order. -/
def wSchemas : List WClass :=
  [ { name := "Person", properties := [⟨"name", ["text"]⟩] }
  , { name := "Place"
      properties := [⟨"name", ["text"]⟩, ⟨"type", ["text"]⟩,
        ⟨"state", ["text"]⟩, ⟨"elevation", ["number"]⟩] }
  , { name := "Project"
      properties := [⟨"name", ["text"]⟩, ⟨"status", ["text"]⟩,
        ⟨"inspiration", ["text"]⟩] }
  , { name := "Idea"
      properties := [⟨"name", ["text"]⟩, ⟨"topics", ["text[]"]⟩] }
  , { name := "Experience"
      properties := [⟨"description", ["text"]⟩, ⟨"startDate", ["text"]⟩,
        ⟨"durationDays", ["number"]⟩, ⟨"durationMonths", ["number"]⟩,
        ⟨"distanceMiles", ["number"]⟩, ⟨"mentor", ["text"]⟩,
        ⟨"product", ["text"]⟩, ⟨"inspirationFor", ["text"]⟩] }
  , { name := "Event"
      properties := [⟨"name", ["text"]⟩, ⟨"date", ["text"]⟩,
        ⟨"activity", ["text"]⟩] } ]

/-- The full trace of store calls made by the Weaviate script, in source
order, given the id-assignment `f` (`f n` is the identifier the store returns
for the n-th `data_object.create` call; the script binds them as
`kaiser_id = f 0`, `nancy_id = f 1`, …, `blacksmithing_id = f 9`). -/
def weaviateCalls (f : Nat → String) : List WCall :=
  (wSchemas.map .createClass) ++
  [ .createObj [("name", .str "Kaiser Soze")] "Person" (f 0)
  , .createObj [("name", .str "Nancy Soze")] "Person" (f 1)
  , .createObj [("name", .str "Collegiate Peaks Wilderness"),
      ("type", .str "Wilderness"), ("state", .str "Colorado")] "Place" (f 2)
  , .createObj [("name", .str "Mount Princeton"), ("type", .str "Mountain"),
      ("elevation", .num 14197), ("state", .str "Colorado")] "Place" (f 3)
  , .createObj [("name", .str "Salida"), ("type", .str "Town"),
      ("state", .str "Colorado")] "Place" (f 4)
  , .createObj [("name", .str "Wildlife Monitoring"),
      ("status", .str "Concept"),
      ("inspiration", .str "Collegiate Peaks trip")] "Project" (f 5)
  , .createObj [("name", .str "Community Resilience Through Technology"),
      ("topics", .strList ["mesh networks", "resource sharing",
        "AI disaster response"])] "Idea" (f 6)
  , .createObj [("description", .str "Solo backpacking trip"),
      ("startDate", .str "2024-06"), ("durationDays", .num 8),
      ("distanceMiles", .num 85),
      ("inspirationFor", .str "Wildlife Monitoring")] "Experience" (f 7)
  , .createObj [("name", .str "24th Wedding Anniversary"),
      ("date", .str "2024-09"),
      ("activity", .str "Climbed Mount Princeton")] "Event" (f 8)
  , .createObj [("description", .str "Learned blacksmithing in Salida"),
      ("startDate", .str "2024-12"), ("durationMonths", .num 3),
      ("mentor", .str "Old-timer in Salida"),
      ("product", .str "Custom door handles")] "Experience" (f 9)
  , .refAdd (f 0) "participatedIn" (f 7)
  , .refAdd (f 0) "inspired" (f 5)
  , .refAdd (f 7) "tookPlaceAt" (f 2)
  , .refAdd (f 0) "marriedTo" (f 1)
  , .refAdd (f 0) "celebrated" (f 8)
  , .refAdd (f 1) "celebrated" (f 8)
  , .refAdd (f 8) "tookPlaceAt" (f 3)
  , .refAdd (f 0) "learnedSkill" (f 9)
  , .refAdd (f 9) "tookPlaceAt" (f 4)
  , .refAdd (f 0) "generatedIdea" (f 6) ]

/-- Weaviate store state: the created class schemas, the data objects keyed by
their returned identifier (each create makes a fresh object), and the added
cross-reference edges. -/
structure WState where
  classes : List WClass
  objects : List (String × (String × Payload))
  edges : List (String × String × String)
deriving DecidableEq

/-- Semantics of one Weaviate call: schema creation records the class, create
appends a fresh object under its returned identifier, reference_add appends a
directed edge. -/
def applyW (s : WState) : WCall → WState
  | .createClass c => { s with classes := s.classes ++ [c] }
  | .createObj p k rid => { s with objects := s.objects ++ [(rid, (k, p))] }
  | .refAdd a r b => { s with edges := s.edges ++ [(a, r, b)] }

/-- Store state after running the whole Weaviate script with id-assignment
`f`. -/
def runW (f : Nat → String) : WState :=
  (weaviateCalls f).foldl applyW ⟨[], [], []⟩

/-- The identifier returned by a call, when the call is a create. -/
def createdId : WCall → Option String
  | .createObj _ _ rid => some rid
  | _ => none

/-- The (source, relation, target) triple of a call, when the call is a
reference_add. -/
def refTriple : WCall → Option (String × String × String)
  | .refAdd a r b => some (a, r, b)
  | _ => none

/-- The identifiers of the ten objects created by the Weaviate script. -/
def wCreatedIds (f : Nat → String) : List String :=
  (weaviateCalls f).filterMap createdId

/-! ### Shared notions -/

/-- The relation names used by the two scripts, as listed by the spec. -/
def relationNames : List String :=
  ["participatedIn", "inspired", "marriedTo", "celebrated", "learnedSkill",
   "generatedIdea", "tookPlaceAt"]

/-- The Qdrant point id of the entity created by the n-th Weaviate create
call: both scripts list the ten entities in the same order. -/
def qid : Nat → String
  | 0 => "kaiser"
  | 1 => "nancy"
  | 2 => "collegiate"
  | 3 => "princeton"
  | 4 => "salida"
  | 5 => "wildlife"
  | 6 => "resilience"
  | 7 => "backpacking"
  | 8 => "anniversary"
  | _ => "blacksmithing"

/-- The ten listed relationship edges, named by the entities' Qdrant ids: the
edges of the Weaviate script read through the entity correspondence `qid`. -/
def listedEdges : List (String × String × String) :=
  (weaviateCalls qid).filterMap refTriple

/-- Kind rank of a Weaviate call: schema definition 0, object insert 1,
reference add 2. -/
def wrank : WCall → Nat
  | .createClass _ => 0
  | .createObj _ _ _ => 1
  | .refAdd _ _ _ => 2

/-- Whether a Qdrant upsert is the relationship step: every payload field of
every point it writes is a relation name (reference lists only). -/
def isRelUpsert (u : QUpsert) : Bool :=
  u.points.all (fun p => p.payload.all (fun kv => relationNames.contains kv.1))

/-- Kind rank of a Qdrant upsert: entity insert 1, relationship-reference
write 2. -/
def qrank (u : QUpsert) : Nat := if isRelUpsert u then 2 else 1

/-- Drop the Qdrant entity-type tag field from a payload. -/
def stripTypeTag (p : Payload) : Payload := p.filter (fun kv => kv.1 ≠ "type")

/-- Read the Qdrant Place-category key `placeType` as the Weaviate key
`type`. -/
def renamePlaceKey (p : Payload) : Payload :=
  p.map (fun kv => if kv.1 = "placeType" then ("type", kv.2) else kv)

/-- The Qdrant entity-type tag of a payload, when present. -/
def typeTag (p : Payload) : Option Value := getVal p "type"

/-- The (payload, class name) pairs of the create calls of the Weaviate
script, in source order (independent of the returned identifiers). -/
def wCreatedPairs : List (Payload × String) :=
  (weaviateCalls qid).filterMap
    (fun c => match c with
      | .createObj p k _ => some (p, k)
      | _ => none)

/-- Whether a call has one of the two shapes named by spec section 6 — an
object insert or a reference add — as opposed to a schema definition. -/
def twoShapesB : WCall → Bool
  | .createClass _ => false
  | .createObj _ _ _ => true
  | .refAdd _ _ _ => true

/-- Referential integrity of a Weaviate trace: walking the calls in order
while accumulating the identifiers returned by create calls, every
reference_add names a source and a target that were created earlier. -/
def wRefOk (created : List String) : List WCall → Prop
  | [] => True
  | .createClass _ :: rest => wRefOk created rest
  | .createObj _ _ rid :: rest => wRefOk (created ++ [rid]) rest
  | .refAdd a _ b :: rest => (a ∈ created ∧ b ∈ created) ∧ wRefOk created rest

/-- The payloads of the Place points of the Qdrant script. -/
def qPlacePayloads : List Payload :=
  (qdrantCall1.points.filter
    (fun p => getVal p.payload "type" == some (.str "Place"))).map QPoint.payload

/-- The payloads of the Place objects created by the Weaviate script. -/
def wPlacePayloads (f : Nat → String) : List Payload :=
  (weaviateCalls f).filterMap
    (fun c => match c with
      | .createObj p "Place" _ => some p
      | _ => none)

/-- The Place categories the spec allows. -/
def placeCats : List String := ["Wilderness", "Mountain", "Town"]

/-- Whether a Place payload has a string display name under `name`, a place
category from `placeCats` under the key `catKey`, and a string state. -/
def placeFieldsOkB (catKey : String) (p : Payload) : Bool :=
  (match getVal p "name" with | some (.str _) => true | _ => false) &&
  (match getVal p catKey with
    | some (.str c) => placeCats.contains c
    | _ => false) &&
  (match getVal p "state" with | some (.str _) => true | _ => false)

/-- Whether a payload carries an elevation field. -/
def hasElev (p : Payload) : Bool := (getVal p "elevation").isSome

/-! ### Claims -/

/-- C1 (counterexample): it is not the case that after running either example
script all ten listed directed relationship edges exist in the store. The
edge (backpacking, tookPlaceAt, collegiate) is one of the ten listed edges,
yet after running the Qdrant script it does not exist in the store state: the
Qdrant script's relationship upsert writes reference lists only onto the
point `kaiser`. -/
theorem C1_counterexample :
    ("backpacking", "tookPlaceAt", "collegiate") ∈ listedEdges ∧
    qEdgeB qdrantFinal "backpacking" "tookPlaceAt" "collegiate" = false := by
  decide

/-- C1 (amended): after running the Weaviate script the store contains
exactly the ten entities with the listed attribute values and all ten listed
directed edges. After running the Qdrant script the store contains the ten
entity records and exactly the six listed edges whose source is `kaiser`; the
other four listed edges do not exist, the nine points other than `kaiser`
keep the records of the first upsert unchanged, and the relationship upsert
has replaced the record of `kaiser` by the relationship payload alone. -/
theorem C1_amended :
    (∀ f : Nat → String,
      (runW f).objects =
        [ (f 0, ("Person", [("name", Value.str "Kaiser Soze")]))
        , (f 1, ("Person", [("name", Value.str "Nancy Soze")]))
        , (f 2, ("Place", [("name", Value.str "Collegiate Peaks Wilderness"),
            ("type", Value.str "Wilderness"),
            ("state", Value.str "Colorado")]))
        , (f 3, ("Place", [("name", Value.str "Mount Princeton"),
            ("type", Value.str "Mountain"), ("elevation", Value.num 14197),
            ("state", Value.str "Colorado")]))
        , (f 4, ("Place", [("name", Value.str "Salida"),
            ("type", Value.str "Town"), ("state", Value.str "Colorado")]))
        , (f 5, ("Project", [("name", Value.str "Wildlife Monitoring"),
            ("status", Value.str "Concept"),
            ("inspiration", Value.str "Collegiate Peaks trip")]))
        , (f 6, ("Idea",
            [("name", Value.str "Community Resilience Through Technology"),
             ("topics", Value.strList ["mesh networks", "resource sharing",
               "AI disaster response"])]))
        , (f 7, ("Experience",
            [("description", Value.str "Solo backpacking trip"),
             ("startDate", Value.str "2024-06"), ("durationDays", Value.num 8),
             ("distanceMiles", Value.num 85),
             ("inspirationFor", Value.str "Wildlife Monitoring")]))
        , (f 8, ("Event", [("name", Value.str "24th Wedding Anniversary"),
            ("date", Value.str "2024-09"),
            ("activity", Value.str "Climbed Mount Princeton")]))
        , (f 9, ("Experience",
            [("description", Value.str "Learned blacksmithing in Salida"),
             ("startDate", Value.str "2024-12"),
             ("durationMonths", Value.num 3),
             ("mentor", Value.str "Old-timer in Salida"),
             ("product", Value.str "Custom door handles")])) ] ∧
      (runW f).edges =
        [ (f 0, "participatedIn", f 7), (f 0, "inspired", f 5)
        , (f 7, "tookPlaceAt", f 2), (f 0, "marriedTo", f 1)
        , (f 0, "celebrated", f 8), (f 1, "celebrated", f 8)
        , (f 8, "tookPlaceAt", f 3), (f 0, "learnedSkill", f 9)
        , (f 9, "tookPlaceAt", f 4), (f 0, "generatedIdea", f 6) ]) ∧
    (getVal qdrantFinal ("entities", "kaiser") =
        some (none, [("participatedIn", Value.strList ["backpacking"]),
          ("inspired", Value.strList ["wildlife"]),
          ("marriedTo", Value.strList ["nancy"]),
          ("celebrated", Value.strList ["anniversary"]),
          ("learnedSkill", Value.strList ["blacksmithing"]),
          ("generatedIdea", Value.strList ["resilience"])]) ∧
      (qdrantCall1.points.filter (fun p => p.id != "kaiser")).all
        (fun p =>
          getVal qdrantFinal ("entities", p.id) ==
            some (p.vector, p.payload)) = true ∧
      (listedEdges.filter (fun e => e.1 == "kaiser")).all
        (fun e => qEdgeB qdrantFinal e.1 e.2.1 e.2.2) = true ∧
      (listedEdges.filter (fun e => e.1 == "kaiser")).length = 6 ∧
      (listedEdges.filter (fun e => e.1 != "kaiser")).all
        (fun e => !qEdgeB qdrantFinal e.1 e.2.1 e.2.2) = true ∧
      (listedEdges.filter (fun e => e.1 != "kaiser")).length = 4) :=
  ⟨fun f => ⟨rfl, rfl⟩, by decide⟩

/-- C2 (counterexample): the two scripts do not record the same relationship
edges: (nancy, celebrated, anniversary) is recorded by the Weaviate script
(it is one of the listed edges) but is not among the edges recorded by the
Qdrant script's relationship upsert. -/
theorem C2_counterexample :
    ("nancy", "celebrated", "anniversary") ∈ listedEdges ∧
    ("nancy", "celebrated", "anniversary") ∉ qdrantRelEdges := by
  decide

/-- C2 (amended): for every one of the ten entities the two scripts insert
the same attribute values — the Qdrant payload with its entity-type tag
removed and the Place-category key `placeType` read as Weaviate's `type`
equals the Weaviate payload, and the Qdrant type tag equals the Weaviate
class name — but the scripts do not record the same edges: the Weaviate
script records the ten listed edges while the Qdrant script records exactly
the six of them whose source is `kaiser`. -/
theorem C2_amended :
    qdrantCall1.points.map
        (fun p => (renamePlaceKey (stripTypeTag p.payload), typeTag p.payload)) =
      wCreatedPairs.map (fun q => (q.1, some (Value.str q.2))) ∧
    qdrantRelEdges = listedEdges.filter (fun e => e.1 = "kaiser") ∧
    listedEdges.length = 10 ∧ qdrantRelEdges.length = 6 := by
  decide

/-- C3 (counterexample): it is not the case that no entity identifier is the
target of more than one write operation: `kaiser` is among the point ids of
both upserts of the Qdrant script, and the second write overwrites its stored
record — after the script its record differs from the one the first upsert
stored. -/
theorem C3_counterexample :
    qdrantIds.contains "kaiser" = true ∧
    (qdrantCall2.points.map QPoint.id).contains "kaiser" = true ∧
    getVal qdrantFinal ("entities", "kaiser") ≠
      getVal qAfter1 ("entities", "kaiser") := by
  decide

/-- C3 (amended): in the Weaviate script every entity is created exactly once
under its own returned identifier and no object is updated or deleted (the
ten create calls bind ten identifier slots once each, and all ten created
objects persist unchanged in the final state). In the Qdrant script the ten
entities are created once each by the first upsert (its ten point ids are
pairwise distinct), but the identifier `kaiser` is additionally the sole
target of the second, relationship upsert, which overwrites its record;
nothing is deleted. -/
theorem C3_amended :
    (∀ f : Nat → String,
      wCreatedIds f = [f 0, f 1, f 2, f 3, f 4, f 5, f 6, f 7, f 8, f 9] ∧
      (runW f).objects.map Prod.fst =
        [f 0, f 1, f 2, f 3, f 4, f 5, f 6, f 7, f 8, f 9]) ∧
    qdrantIds = ["kaiser", "nancy", "collegiate", "princeton", "salida",
      "wildlife", "resilience", "backpacking", "anniversary",
      "blacksmithing"] ∧
    qdrantIds.Nodup ∧
    qdrantCall2.points.map QPoint.id = ["kaiser"] :=
  ⟨fun f => ⟨rfl, rfl⟩, by decide⟩

/-- C4: in each script the store calls occur in the order schema definition
(where applicable), then entity inserts, then relationship-reference
operations: the kind ranks (schema 0, insert 1, reference 2) along the
Weaviate trace are non-decreasing for every id-assignment, and along the
Qdrant trace the entity upsert (rank 1) precedes the relationship upsert
(rank 2). -/
theorem C4_call_order :
    (∀ f : Nat → String,
      List.Pairwise (· ≤ ·) ((weaviateCalls f).map wrank)) ∧
    List.Pairwise (· ≤ ·) (qdrantTrace.map qrank) := by
  constructor
  · intro f
    have h : (weaviateCalls f).map wrank =
        [0, 0, 0, 0, 0, 0, 1, 1, 1, 1, 1, 1, 1, 1, 1, 1,
         2, 2, 2, 2, 2, 2, 2, 2, 2, 2] := rfl
    rw [h]
    decide
  · decide

/-- C5: every relationship recorded by either script is a directed, named
edge between two entity identifiers whose relation name lies in
{participatedIn, inspired, marriedTo, celebrated, learnedSkill,
generatedIdea, tookPlaceAt}: each reference_add of the Weaviate script
carries a relation name from that set and endpoints among the ten created
identifiers, and each edge of the Qdrant relationship upsert carries a
relation name from that set and endpoints among the ten upserted point
ids. -/
theorem C5_edge_shape :
    (∀ f : Nat → String,
      (((weaviateCalls f).filterMap refTriple).map (fun e => e.2.1)).all
        relationNames.contains = true ∧
      List.Forall (fun e => e.1 ∈ wCreatedIds f ∧ e.2.2 ∈ wCreatedIds f)
        ((weaviateCalls f).filterMap refTriple)) ∧
    qdrantRelEdges.all (fun e => relationNames.contains e.2.1 &&
      qdrantIds.contains e.1 && qdrantIds.contains e.2.2) = true := by
  refine ⟨fun f => ⟨rfl, ?_⟩, by decide⟩
  simp [weaviateCalls, wSchemas, refTriple, wCreatedIds, createdId,
    List.Forall]

/-- C6: every Place record inserted by either script has an identifier, a
string display name, a place category among Wilderness, Mountain, Town
(under the key `placeType` in Qdrant and `type` in Weaviate), and a state;
elevation is present on some Place records and absent on others. -/
theorem C6_place_fields :
    ((qdrantCall1.points.filter
        (fun p => getVal p.payload "type" == some (.str "Place"))).all
      (fun p => p.id != "") = true ∧
     qPlacePayloads.all (placeFieldsOkB "placeType") = true ∧
     qPlacePayloads.any hasElev = true ∧
     qPlacePayloads.any (fun p => !hasElev p) = true) ∧
    ∀ f : Nat → String,
      (wPlacePayloads f).all (placeFieldsOkB "type") = true ∧
      (wPlacePayloads f).any hasElev = true ∧
      (wPlacePayloads f).any (fun p => !hasElev p) = true :=
  ⟨by decide, fun f => ⟨rfl, rfl, rfl⟩⟩

/-- C7 (counterexample): it is not the case that every store call has one of
the two shapes insert or reference-add: the Weaviate trace (here at the
id-assignment `qid`) contains schema-definition calls, which are neither. -/
theorem C7_counterexample :
    (weaviateCalls qid).all twoShapesB = false := by
  decide

/-- C7 (amended): every store call made by the scripts has one of exactly
three shapes — a schema-definition call taking a class schema (the first six
Weaviate calls, rank 0), an upsert/insert call taking the collection or class
name, identifier, vector (where the backend takes one) and attribute payload
(the next ten Weaviate calls and both Qdrant upserts, rank 1), or a
reference-add call taking (source identifier, relation name, target
identifier) (the last ten Weaviate calls, rank 2); both Qdrant calls address
the collection `entities`. -/
theorem C7_amended :
    (∀ f : Nat → String, (weaviateCalls f).map wrank =
      [0, 0, 0, 0, 0, 0, 1, 1, 1, 1, 1, 1, 1, 1, 1, 1,
       2, 2, 2, 2, 2, 2, 2, 2, 2, 2]) ∧
    qdrantTrace.map QUpsert.collection_name = ["entities", "entities"] :=
  ⟨fun f => rfl, by decide⟩

/-- C8: the scripts issue every call unconditionally: the Weaviate trace has
the same length (26) and the same sequence of call kinds for every
id-assignment the store could return — no call result other than the
returned identifiers flows into the trace, and no call is skipped, retried
or made conditional — and the Qdrant trace is a fixed two-call sequence. -/
theorem C8_unconditional_trace :
    (∀ f g : Nat → String,
      (weaviateCalls f).map wrank = (weaviateCalls g).map wrank ∧
      (weaviateCalls f).length = 26) ∧
    qdrantTrace.length = 2 :=
  ⟨fun f g => ⟨rfl, rfl⟩, rfl⟩

/-- C9: referential integrity: walking the Weaviate trace in order, every
reference_add names a source and a target identifier returned by an earlier
create call of the same script, for every id-assignment; and every endpoint
of every edge recorded by the Qdrant relationship upsert is one of the ten
point ids upserted by the earlier entity upsert. -/
theorem C9_referential_integrity :
    (∀ f : Nat → String, wRefOk [] (weaviateCalls f)) ∧
    qdrantRelEdges.all (fun e => qdrantIds.contains e.1 &&
      qdrantIds.contains e.2.2) = true := by
  refine ⟨fun f => ?_, by decide⟩
  simp [weaviateCalls, wSchemas, wRefOk]

/-- C10: the Qdrant script's second upsert writes only the point `kaiser`
into the collection `entities`: its point list is exactly [kaiser], and each
of the nine other entity identifiers has the same stored record after the
second upsert as after the first. -/
theorem C10_frame_effect :
    qdrantCall2.collection_name = "entities" ∧
    qdrantCall2.points.map QPoint.id = ["kaiser"] ∧
    (qdrantIds.filter (fun i => i != "kaiser")).all
      (fun i => getVal qdrantFinal ("entities", i) ==
        getVal qAfter1 ("entities", i)) = true ∧
    (qdrantIds.filter (fun i => i != "kaiser")).length = 9 := by
  decide

end Archimedes
